import Mathlib

/-!
Shallow embedding of the `airbreak404/media-server` repository:

* `src/scripts/06_configure_apps_via_api.py` — the configuration
  orchestrator (environment loader, API client, readiness prober,
  idempotent configurator, driver `main`), and
* `src/apps/webhook-notifier/app.py` — the webhook relay.

The network is modelled as a script of pre-determined HTTP outcomes
consumed one per request, together with a trace of the requests issued.
Wall-clock time in the readiness poll loop is abstracted into a fuel
parameter (the number of remaining probe opportunities before the 60 s
deadline).  Python string operations used by the scripts are re-defined
structurally over `List Char` so that every definition evaluates by
kernel reduction.
-/

namespace MediaServer

/-! ## Python string primitives -/

/-- ASCII whitespace, as stripped by Python's `str.strip()` (the source
only ever strips ASCII text from `.env` files). -/
def isPySpace (c : Char) : Bool :=
  c = ' ' || c = '\t' || c = '\n' || c = '\r' || c = '\x0b' || c = '\x0c'

/-- Characters of `s.strip()`: drop leading and trailing whitespace. -/
def stripChars (l : List Char) : List Char :=
  ((l.dropWhile isPySpace).reverse.dropWhile isPySpace).reverse

/-- Python `str.strip()`. -/
def pyStrip (s : String) : String :=
  String.mk (stripChars s.data)

/-- Python `str.rstrip('/')`, used by the `ArrApp` constructor on the
base URL. -/
def pyRstripSlash (s : String) : String :=
  String.mk ((s.data.reverse.dropWhile (fun c => c = '/')).reverse)

/-- Split a character list at the first occurrence of `c`:
returns the part before it and, when `c` occurs, the part after it.
This is Python's `s.split(c, 1)` together with the `c in s` test. -/
def splitOnce (l : List Char) (c : Char) : List Char × Option (List Char) :=
  match l with
  | [] => ([], none)
  | x :: xs =>
    if x = c then ([], some xs)
    else
      let r := splitOnce xs c
      (x :: r.1, r.2)

/-- Python `c in s` for a single character `c`. -/
def containsChar (s : String) (c : Char) : Bool :=
  (splitOnce s.data c).2.isSome

/-- Python `s.startswith(p)` for a one-character prefix `p`. -/
def startsWithChar (s : String) (c : Char) : Bool :=
  match s.data with
  | [] => false
  | x :: _ => x = c

/-- Python `s.split(c)` for a one-character separator: all fields, in
order; always at least one field. -/
def splitAll (l : List Char) (c : Char) : List (List Char) :=
  match l with
  | [] => [[]]
  | x :: xs =>
    let r := splitAll xs c
    if x = c then [] :: r
    else
      match r with
      | h :: t => (x :: h) :: t
      | [] => [[x]]

/-- Test whether `pat` is a prefix of `l`, returning the remainder. -/
def dropPrefixChars (l pat : List Char) : Option (List Char) :=
  match pat, l with
  | [], rest => some rest
  | _ :: _, [] => none
  | p :: ps, x :: xs => if x = p then dropPrefixChars xs ps else none

/-- Fuelled worker for `pyReplace`; the fuel starts at the length of the
subject string, which is enough since every step consumes at least one
character. -/
def replaceFuel (fuel : Nat) (l pat rep : List Char) : List Char :=
  match fuel, l with
  | 0, rest => rest
  | _ + 1, [] => []
  | fuel + 1, x :: xs =>
    match pat, dropPrefixChars (x :: xs) pat with
    | _ :: _, some rest => rep ++ replaceFuel fuel rest pat rep
    | _, _ => x :: replaceFuel fuel xs pat rep

/-- Python `s.replace(pat, rep)` for a non-empty pattern (the source
only replaces the literal `"http://"`). -/
def pyReplace (s pat rep : String) : String :=
  String.mk (replaceFuel s.data.length s.data pat.data rep.data)

/-- Parse a decimal integer with an optional sign, as Python's `int()`
does on a clean numeral.  Python raises `ValueError` on any other
string; the model returns `0` there, and no theorem depends on that
case (the source only parses the port of `"http://rdtclient:6500"`). -/
def pyInt (s : String) : Int :=
  let digits (l : List Char) : Option Nat :=
    l.foldl (fun acc c =>
      match acc with
      | none => none
      | some n => if c.isDigit then some (n * 10 + (c.toNat - 48)) else none)
      (if l.isEmpty then none else some 0)
  match s.data with
  | '-' :: rest => match digits rest with | some n => -(n : Int) | none => 0
  | '+' :: rest => match digits rest with | some n => (n : Int) | none => 0
  | l => match digits l with | some n => (n : Int) | none => 0

/-! ## JSON values

Parsed JSON payloads, as Python's `json` module and the `requests`
library hand them to the scripts.  Numbers are modelled as integers:
every number appearing in the source's payloads is integral, and only
truthiness (comparison with `0`) matters to any claim. -/

inductive Json where
  | null : Json
  | bool : Bool → Json
  | num : Int → Json
  | str : String → Json
  | arr : List Json → Json
  | obj : List (String × Json) → Json

/-- Python truthiness of a parsed JSON value: `None`, `False`, `0`,
`""`, `[]` and `\x7b\x7d` are falsy, everything else truthy. -/
def Json.truthy : Json → Bool
  | .null => false
  | .bool b => b
  | .num n => n != 0
  | .str s => !s.data.isEmpty
  | .arr xs => !xs.isEmpty
  | .obj fs => !fs.isEmpty

/-- Whether a JSON value is an object (a Python `dict`). -/
def Json.isObj : Json → Bool
  | .obj _ => true
  | _ => false

/-- Field lookup on an object; `none` when the receiver is not an
object or the key is absent.  Parsed-JSON objects have unique keys, so
first-match lookup is exact. -/
def Json.getField? (j : Json) (k : String) : Option Json :=
  match j with
  | .obj fields => fields.lookup k
  | _ => none

/-- Python `d.get(k, dflt)`: errors (Python `AttributeError`) when the
receiver is not a `dict`, otherwise the field's value or the default. -/
def Json.pyGet (j : Json) (k : String) (dflt : Json) : Except Unit Json :=
  match j with
  | .obj fields => .ok ((fields.lookup k).getD dflt)
  | _ => .error ()

/-- Python `str()` of a parsed JSON value, as interpolated into an
f-string.  Lists and dicts render via `repr` in Python; the claims only
ever interpolate strings (and the other scalar spellings are faithful),
so those two branches use placeholders. -/
def pyStr : Json → String
  | .str s => s
  | .null => "None"
  | .bool true => "True"
  | .bool false => "False"
  | .num n => toString n
  | .arr _ => "[...]"
  | .obj _ => "\x7b...\x7d"

/-! ## Webhook relay (`src/apps/webhook-notifier/app.py`) -/

/-- Observable outcome of one `do_POST` invocation: either a response
was sent (with the shell command line passed to `os.system` — the
response body is always empty, since the handler sends only the status
line and headers), or an exception escaped the handler and no response
was sent. -/
inductive PostOutcome where
  | responded : Nat → String → PostOutcome
  | crashed : PostOutcome

/-- Shell command line the handler passes to `os.system` for a given
interpolated title. -/
def mkCmd (title : String) : String :=
  "bash scripts/phase2/send_alert.sh info \"Media Ready\" \"" ++ title
    ++ " is ready to watch!\""

/-- Evaluation of `data.get('series', \x7b\x7d).get('title')`. -/
def seriesTitle (data : Json) : Except Unit Json :=
  match data.pyGet "series" (Json.obj []) with
  | .error _ => .error ()
  | .ok sv => sv.pyGet "title" Json.null

/-- Evaluation of the source's title expression
`data.get('series', \x7b\x7d).get('title') or data.get('movie', \x7b\x7d).get('title', 'Unknown')`,
with Python's short-circuiting `or` on truthiness. -/
def extractTitle (data : Json) : Except Unit Json :=
  match seriesTitle data with
  | .error _ => .error ()
  | .ok t =>
    if t.truthy then .ok t
    else
      match data.pyGet "movie" (Json.obj []) with
      | .error _ => .error ()
      | .ok mv => mv.pyGet "title" (Json.str "Unknown")

/-- One run of `WebhookHandler.do_POST`.  The input is the request body
after JSON decoding: `none` means the body was not valid JSON, in which
case `json.loads` raises and the handler sends nothing.  On success the
handler invokes `os.system` (whose return value is discarded and which
never raises, so alert-command failure cannot change the response) and
then sends a bare `200`. -/
def do_POST (parsed : Option Json) : PostOutcome :=
  match parsed with
  | none => .crashed
  | some data =>
    match data.pyGet "eventType" (Json.str "Unknown") with
    | .error _ => .crashed
    | .ok _ =>
      match extractTitle data with
      | .error _ => .crashed
      | .ok t => .responded 200 (mkCmd (pyStr t))

/-! ## Environment loader (`load_env`) -/

/-- Python `dict` assignment `d[k] = v`: update in place when the key is
present (keys are unique by construction), append otherwise. -/
def dictSet : List (String × String) → String → String → List (String × String)
  | [], k, v => [(k, v)]
  | (a, b) :: t, k, v => if a = k then (k, v) :: t else (a, b) :: dictSet t k v

/-- Python `d.get(k)` on a string dictionary. -/
def dictGet : List (String × String) → String → Option String
  | [], _ => none
  | (a, b) :: t, k => if a = k then some b else dictGet t k

/-- Processing of one line of the `.env` file inside `load_env`'s loop:
strip the line; when it is non-empty, does not start with `#`, and
contains `=`, split at the first `=` and store the stripped key and
value. -/
def envLineStep (env : List (String × String)) (line : String) :
    List (String × String) :=
  let l := pyStrip line
  if l ≠ "" && !startsWithChar l '#' && containsChar l '=' then
    match (splitOnce l.data '=').2 with
    | some rest =>
      dictSet env (pyStrip (String.mk (splitOnce l.data '=').1))
        (pyStrip (String.mk rest))
    | none => env
  else env

/-- `load_env`: fold `envLineStep` over the lines of the `.env` file.
The surrounding existence check (`sys.exit(1)` when the file is
missing) is outside the model, which takes the file's lines directly. -/
def load_env (lines : List String) : List (String × String) :=
  lines.foldl envLineStep []

/-! ## HTTP model -/

/-- HTTP method of an issued request. -/
inductive Method where
  | get : Method
  | post : Method
  | put : Method
deriving DecidableEq

/-- One HTTP request as issued by the script: method, full URL, JSON
body for POST/PUT, and the `timeout=` argument passed to `requests`. -/
structure Request where
  method : Method
  url : String
  body : Option Json
  timeout : Nat

/-- Outcome of one HTTP transaction, as seen through the `requests`
library: either a `RequestException` from the transport (connection
error, timeout, too many redirects), or a final response with its
status code and its body's parse — `none` when the body is not valid
JSON (`resp.json()` then raises `requests.exceptions.JSONDecodeError`,
itself a `RequestException`). -/
inductive HttpOutcome where
  | netError : HttpOutcome
  | response : Nat → Option Json → HttpOutcome

/-- Network state threaded through a run: the script of outcomes still
pending (consumed one per request) and the trace of requests issued so
far. -/
structure NetState where
  pending : List HttpOutcome
  trace : List Request

/-- Issue one request: record it in the trace and consume the next
scripted outcome (an exhausted script behaves as a network error). -/
def doRequest (req : Request) (st : NetState) : HttpOutcome × NetState :=
  match st.pending with
  | [] => (.netError, { st with trace := st.trace ++ [req] })
  | o :: rest => (o, { pending := rest, trace := st.trace ++ [req] })

/-! ## API client (`class ArrApp`) -/

/-- An `ArrApp` instance: service name, base URL, API key.  The session
headers (`X-Api-Key`, `Content-Type`) carry no behaviour in the model. -/
structure ArrApp where
  name : String
  url : String
  api_key : Option String

/-- The `ArrApp.__init__` constructor, which strips trailing slashes
from the base URL. -/
def mkArrApp (name url : String) (api_key : Option String) : ArrApp :=
  { name := name, url := pyRstripSlash url, api_key := api_key }

/-- Shared body of the three request methods: `resp.raise_for_status()`
raises `HTTPError` exactly for status codes 400–599, and every
`RequestException` (transport error or `HTTPError` or JSON-decode
error) is caught and converted to the sentinel `None`. -/
def httpResult (o : HttpOutcome) : Option Json :=
  match o with
  | .netError => none
  | .response s b => if 400 ≤ s ∧ s < 600 then none else b

/-- `ArrApp.get`: GET `\x7bself.url\x7d/api/v3/\x7bendpoint\x7d` with
`timeout=10`; returns the parsed JSON or the sentinel `None`. -/
def ArrApp.get (app : ArrApp) (endpoint : String) (st : NetState) :
    Option Json × NetState :=
  let r := doRequest
    { method := .get, url := app.url ++ "/api/v3/" ++ endpoint,
      body := none, timeout := 10 } st
  (httpResult r.1, r.2)

/-- `ArrApp.post`: POST with a JSON body and `timeout=10`. -/
def ArrApp.post (app : ArrApp) (endpoint : String) (data : Json)
    (st : NetState) : Option Json × NetState :=
  let r := doRequest
    { method := .post, url := app.url ++ "/api/v3/" ++ endpoint,
      body := some data, timeout := 10 } st
  (httpResult r.1, r.2)

/-- `ArrApp.put`: PUT with a JSON body and `timeout=10`.  (The source
defines it; no caller in the repository uses it.) -/
def ArrApp.put (app : ArrApp) (endpoint : String) (data : Json)
    (st : NetState) : Option Json × NetState :=
  let r := doRequest
    { method := .put, url := app.url ++ "/api/v3/" ++ endpoint,
      body := some data, timeout := 10 } st
  (httpResult r.1, r.2)

/-- `ArrApp.wait_for_ready`: poll `GET /api/v3/system/status` with
`timeout=5` until one probe returns status 200.  The 60-second deadline
with 2-second sleeps is abstracted into `fuel`, the number of probe
opportunities remaining; any status other than 200, and any transport
error, falls through to the next iteration. -/
def wait_for_ready (app : ArrApp) (fuel : Nat) (st : NetState) :
    Bool × NetState :=
  match fuel with
  | 0 => (false, st)
  | n + 1 =>
    let r := doRequest
      { method := .get, url := app.url ++ "/api/v3/system/status",
        body := none, timeout := 5 } st
    match r.1 with
    | .response s _ => if s = 200 then (true, r.2) else wait_for_ready app n r.2
    | .netError => wait_for_ready app n r.2

/-! ## Idempotent configurator

Python iterates `for client in clients` and compares
`client.get('name') == 'RdtClient'`.  On well-formed API payloads the
collection is a JSON array of objects; the model's field access returns
"absent" on a non-object where Python would raise `AttributeError`, and
every theorem about the scan restricts to arrays of objects, where the
two agree. -/

/-- Python truthiness of an `Optional[Dict]` API result (`None` is
falsy; a parsed value is as truthy as the value). -/
def optTruthy : Option Json → Bool
  | none => false
  | some j => j.truthy

/-- Elements iterated by `for x in collection` when the collection is a
JSON array (the only well-formed case; see the section comment). -/
def optElems : Option Json → List Json
  | some (.arr xs) => xs
  | _ => []

/-- Python `entry.get(key) == target` for a string `target`: true
exactly when the field is present and is that string (comparison of
`None` or a non-string with a string is `False` in Python). -/
def fieldEqStr (entry : Json) (key target : String) : Bool :=
  match entry.getField? key with
  | some (.str s) => s = target
  | _ => false

/-- Linear scan of the source's check-before-create loops: does any
entry of the collection have `key` equal to the string `target`? -/
def scanFieldEq (es : List Json) (key target : String) : Bool :=
  es.any (fun e => fieldEqStr e key target)

/-- The `client_config` payload built by `add_download_client`,
including the host/port parsing of the RdtClient URL. -/
def downloadClientConfig (rdt_url category : String) : Json :=
  Json.obj [
    ("enable", .bool true),
    ("protocol", .str "torrent"),
    ("priority", .num 1),
    ("removeCompletedDownloads", .bool true),
    ("removeFailedDownloads", .bool true),
    ("name", .str "RdtClient"),
    ("fields", .arr [
      .obj [("name", .str "host"),
            ("value", .str (String.mk
              (((splitAll (pyReplace rdt_url "http://" "").data ':').headD []))))],
      .obj [("name", .str "port"),
            ("value", .num (pyInt (String.mk
              ((splitAll rdt_url.data ':').getLastD []))))],
      .obj [("name", .str "useSsl"), ("value", .bool false)],
      .obj [("name", .str "urlBase"), ("value", .str "")],
      .obj [("name", .str "username"), ("value", .str "")],
      .obj [("name", .str "password"), ("value", .str "")],
      .obj [("name", .str "category"), ("value", .str category)],
      .obj [("name", .str "postImportCategory"), ("value", .str "")],
      .obj [("name", .str "recentPriority"), ("value", .num 0)],
      .obj [("name", .str "olderPriority"), ("value", .num 0)],
      .obj [("name", .str "initialState"), ("value", .num 0)],
      .obj [("name", .str "sequentialOrder"), ("value", .bool false)],
      .obj [("name", .str "firstAndLast"), ("value", .bool false)]]),
    ("implementationName", .str "qBittorrent"),
    ("implementation", .str "QBittorrent"),
    ("configContract", .str "QBittorrentSettings"),
    ("tags", .arr [])]

/-- `ArrApp.add_download_client`: fetch the download-client collection;
if it is truthy and some entry has `name == 'RdtClient'`, report success
without posting; otherwise POST the full client payload and report the
truthiness of the parsed response. -/
def ArrApp.add_download_client (app : ArrApp) (rdt_url category : String)
    (st : NetState) : Bool × NetState :=
  let r := app.get "downloadclient" st
  if optTruthy r.1 && scanFieldEq (optElems r.1) "name" "RdtClient" then
    (true, r.2)
  else
    let p := app.post "downloadclient" (downloadClientConfig rdt_url category) r.2
    (optTruthy p.1, p.2)

/-- `ArrApp.add_root_folder`: same protocol keyed on `path` equality. -/
def ArrApp.add_root_folder (app : ArrApp) (path : String) (st : NetState) :
    Bool × NetState :=
  let r := app.get "rootfolder" st
  if optTruthy r.1 && scanFieldEq (optElems r.1) "path" path then
    (true, r.2)
  else
    let p := app.post "rootfolder" (Json.obj [("path", .str path)]) r.2
    (optTruthy p.1, p.2)

/-- `ArrApp.add_remote_path_mapping`: same protocol keyed on `host`
equality only — the remote and local paths of existing entries are
never compared. -/
def ArrApp.add_remote_path_mapping (app : ArrApp)
    (host remote_path local_path : String) (st : NetState) : Bool × NetState :=
  let r := app.get "remotePathMapping" st
  if optTruthy r.1 && scanFieldEq (optElems r.1) "host" host then
    (true, r.2)
  else
    let p := app.post "remotePathMapping"
      (Json.obj [("host", .str host), ("remotePath", .str remote_path),
                 ("localPath", .str local_path)]) r.2
    (optTruthy p.1, p.2)

/-! ## Orchestration driver -/

/-- Python truthiness of the `Optional[str]` API key: absent or empty
keys are falsy and make the configure function skip the service. -/
def strOptTruthy : Option String → Bool
  | none => false
  | some s => !s.data.isEmpty

/-- `configure_sonarr`: resolve the API key (skip with failure when
falsy), probe readiness (failure on timeout), in dry-run mode stop there
with success, otherwise run the three ensure-present operations —
discarding each operation's boolean result, exactly as the source does
— and report success. -/
def configure_sonarr (env : List (String × String)) (dry_run : Bool)
    (fuel : Nat) (st : NetState) : Bool × NetState :=
  let api_key := dictGet env "SONARR_API_KEY"
  if !strOptTruthy api_key then (false, st)
  else
    let sonarr := mkArrApp "Sonarr" "http://localhost:8989" api_key
    let w := wait_for_ready sonarr fuel st
    if !w.1 then (false, w.2)
    else if dry_run then (true, w.2)
    else
      let a := sonarr.add_download_client "http://rdtclient:6500" "sonarr" w.2
      let b := sonarr.add_root_folder "/tv" a.2
      let c := sonarr.add_remote_path_mapping "rdtclient" "/data/downloads"
        "/data/downloads" b.2
      (true, c.2)

/-- `configure_radarr`: same shape as `configure_sonarr` with Radarr's
key, URL, category and root folder. -/
def configure_radarr (env : List (String × String)) (dry_run : Bool)
    (fuel : Nat) (st : NetState) : Bool × NetState :=
  let api_key := dictGet env "RADARR_API_KEY"
  if !strOptTruthy api_key then (false, st)
  else
    let radarr := mkArrApp "Radarr" "http://localhost:7878" api_key
    let w := wait_for_ready radarr fuel st
    if !w.1 then (false, w.2)
    else if dry_run then (true, w.2)
    else
      let a := radarr.add_download_client "http://rdtclient:6500" "radarr" w.2
      let b := radarr.add_root_folder "/movies" a.2
      let c := radarr.add_remote_path_mapping "rdtclient" "/data/downloads"
        "/data/downloads" b.2
      (true, c.2)

/-- `configure_prowlarr`: key check and readiness probe only; after a
successful probe it prints the remaining manual steps and reports
success, in dry-run mode as well. -/
def configure_prowlarr (env : List (String × String)) (dry_run : Bool)
    (fuel : Nat) (st : NetState) : Bool × NetState :=
  let api_key := dictGet env "PROWLARR_API_KEY"
  if !strOptTruthy api_key then (false, st)
  else
    let prowlarr := mkArrApp "Prowlarr" "http://localhost:9696" api_key
    let w := wait_for_ready prowlarr fuel st
    if !w.1 then (false, w.2)
    else
      let _ := dry_run
      (true, w.2)

/-- The `--app` choice on the command line. -/
inductive AppChoice where
  | sonarr : AppChoice
  | radarr : AppChoice
  | prowlarr : AppChoice
  | all : AppChoice
deriving DecidableEq

/-- `main` after argument parsing: load the environment, run each
selected configure function in order, accumulate `success`, and exit
with code 1 via `sys.exit(1)` when `success` is false and code 0
otherwise. -/
def mainRun (choice : AppChoice) (dry_run : Bool) (envLines : List String)
    (fuel : Nat) (st : NetState) : Nat × NetState :=
  let env := load_env envLines
  let s0 := (true, st)
  let s1 :=
    if choice = .sonarr ∨ choice = .all then
      let r := configure_sonarr env dry_run fuel s0.2
      (s0.1 && r.1, r.2)
    else s0
  let s2 :=
    if choice = .radarr ∨ choice = .all then
      let r := configure_radarr env dry_run fuel s1.2
      (s1.1 && r.1, r.2)
    else s1
  let s3 :=
    if choice = .prowlarr ∨ choice = .all then
      let r := configure_prowlarr env dry_run fuel s2.2
      (s2.1 && r.1, r.2)
    else s2
  ((if s3.1 then 0 else 1), s3.2)

/-! ## Helper lemmas -/

/-- Updating a key and then reading gives the new value at that key and
leaves every other key unchanged. -/
theorem dictGet_dictSet (d : List (String × String)) (k v q : String) :
    dictGet (dictSet d k v) q = if q = k then some v else dictGet d q := by
  induction d with
  | nil =>
    simp only [dictSet, dictGet]
    by_cases h : q = k
    · subst h; simp
    · rw [if_neg (fun h2 => h h2.symm), if_neg h]
  | cons p t ih =>
    obtain ⟨a, b⟩ := p
    by_cases hak : a = k
    · subst hak
      simp only [dictSet, if_pos rfl, dictGet]
      by_cases hq : q = a
      · subst hq; simp
      · rw [if_neg (fun h2 => hq h2.symm), if_neg hq,
          if_neg (fun h2 => hq h2.symm)]
    · simp only [dictSet, if_neg hak, dictGet, ih]
      by_cases haq : a = q
      · subst haq
        rw [if_pos rfl, if_neg hak, if_pos rfl]
      · rw [if_neg haq]
        by_cases hqk : q = k
        · rw [if_pos hqk, if_pos hqk]
        · rw [if_neg hqk, if_neg hqk, if_neg haq]

/-- A collection entry whose field is the sought string makes the
check-before-create scan succeed. -/
theorem scanFieldEq_of_mem {es : List Json} {e : Json} {key target : String}
    (he : e ∈ es) (hf : e.getField? key = some (Json.str target)) :
    scanFieldEq es key target = true := by
  simp only [scanFieldEq, List.any_eq_true]
  exact ⟨e, he, by simp [fieldEqStr, hf]⟩

/-- The probe request issued by `wait_for_ready`. -/
def probeReq (app : ArrApp) : Request :=
  { method := Method.get, url := app.url ++ "/api/v3/system/status",
    body := none, timeout := 5 }

/-- The readiness prober only ever issues GET requests: its final trace
extends the initial one by GET probes. -/
theorem wait_for_ready_trace (app : ArrApp) :
    ∀ (fuel : Nat) (pend : List HttpOutcome) (tr : List Request), ∃ new,
      (wait_for_ready app fuel ⟨pend, tr⟩).2.trace = tr ++ new ∧
      ∀ q ∈ new, q.method = Method.get := by
  intro fuel
  induction fuel with
  | zero => intro pend tr; exact ⟨[], by simp [wait_for_ready], by simp⟩
  | succ n ih =>
    intro pend tr
    cases pend with
    | nil =>
      obtain ⟨new, h1, h2⟩ := ih [] (tr ++ [probeReq app])
      refine ⟨probeReq app :: new, ?_, ?_⟩
      · simpa [wait_for_ready, doRequest, probeReq] using h1
      · intro q hq
        rcases List.mem_cons.mp hq with h | h
        · subst h; rfl
        · exact h2 q h
    | cons o rest =>
      cases o with
      | netError =>
        obtain ⟨new, h1, h2⟩ := ih rest (tr ++ [probeReq app])
        refine ⟨probeReq app :: new, ?_, ?_⟩
        · simpa [wait_for_ready, doRequest, probeReq] using h1
        · intro q hq
          rcases List.mem_cons.mp hq with h | h
          · subst h; rfl
          · exact h2 q h
      | response s b =>
        by_cases hs : s = 200
        · subst hs
          refine ⟨[probeReq app], ?_, ?_⟩
          · simp [wait_for_ready, doRequest, probeReq]
          · intro q hq
            simp only [List.mem_singleton] at hq
            subst hq; rfl
        · obtain ⟨new, h1, h2⟩ := ih rest (tr ++ [probeReq app])
          refine ⟨probeReq app :: new, ?_, ?_⟩
          · simpa [wait_for_ready, doRequest, probeReq, hs] using h1
          · intro q hq
            rcases List.mem_cons.mp hq with h | h
            · subst h; rfl
            · exact h2 q h

/-! ## Claim C10 — environment loader -/

/-- C10 counterexample: the line `"  #A=B"` is non-blank, does not
start with `#` (it starts with a space), and contains `=`, yet
`load_env` maps nothing for it — the source strips the line before the
`#` test, so an indented comment line is skipped, contrary to the claim
as stated. -/
theorem c10_counterexample :
    pyStrip "  #A=B" ≠ "" ∧ startsWithChar "  #A=B" '#' = false ∧
    containsChar "  #A=B" '=' = true ∧ load_env ["  #A=B"] = [] ∧
    dictGet (load_env ["  #A=B"]) "#A" = none :=
  ⟨by decide, rfl, rfl, rfl, rfl⟩

/-- C10 (amended): for each line whose *stripped* form is non-empty,
does not start with `#`, and contains `=`, the loader maps the text
before the first `=` (whitespace-stripped) to the text after it
(whitespace-stripped), a later binding for the same key overwriting an
earlier one; every other line — including an indented comment line — is
silently ignored. -/
theorem c10_load_env_amended :
    (∀ (ls : List String) (line : String),
      (pyStrip line = "" ∨ startsWithChar (pyStrip line) '#' = true ∨
        containsChar (pyStrip line) '=' = false) →
      load_env (ls ++ [line]) = load_env ls) ∧
    (∀ (ls : List String) (line : String) (k rest : List Char),
      pyStrip line ≠ "" →
      startsWithChar (pyStrip line) '#' = false →
      splitOnce (pyStrip line).data '=' = (k, some rest) →
      ∀ q : String, dictGet (load_env (ls ++ [line])) q =
        if q = pyStrip (String.mk k) then some (pyStrip (String.mk rest))
        else dictGet (load_env ls) q) := by
  constructor
  · intro ls line h
    simp only [load_env, List.foldl_append, List.foldl_cons, List.foldl_nil]
    rcases h with h | h | h
    · simp [envLineStep, h]
    · simp [envLineStep, h]
    · simp [envLineStep, h]
  · intro ls line k rest h1 h2 h3 q
    simp only [load_env, List.foldl_append, List.foldl_cons, List.foldl_nil]
    have hc : containsChar (pyStrip line) '=' = true := by
      simp [containsChar, h3]
    simp only [envLineStep, h3, hc, h2]
    simp [h1, dictGet_dictSet]

/-- Witness for C10: an indented comment line between assignments is
ignored, and a plain assignment with inner `=` and padding is parsed
with both sides stripped. -/
theorem c10_witness :
    (load_env (["X=1"] ++ ["  #A=B"]) = load_env ["X=1"]) ∧
    (dictGet (load_env ([] ++ [" A = B = C "])) "A" =
      if "A" = pyStrip (String.mk "A ".data)
      then some (pyStrip (String.mk " B = C".data))
      else dictGet (load_env []) "A") :=
  ⟨c10_load_env_amended.1 ["X=1"] "  #A=B" (Or.inr (Or.inl rfl)),
   c10_load_env_amended.2 [] " A = B = C " "A ".data " B = C".data
     (by decide) rfl rfl "A"⟩

/-- A field constrained to be an object (when present) yields an object
after `.get(key, \x7b\x7d)`'s defaulting. -/
theorem lookupD_isObj (fs : List (String × Json)) (key : String)
    (h : ∀ v, Json.getField? (Json.obj fs) key = some v → v.isObj = true) :
    ∃ g, (fs.lookup key).getD (Json.obj []) = Json.obj g := by
  cases hl : fs.lookup key with
  | none => exact ⟨[], rfl⟩
  | some v =>
    have hv := h v (by simpa [Json.getField?] using hl)
    cases v with
    | obj g => exact ⟨g, rfl⟩
    | null => simp [Json.isObj] at hv
    | bool b => simp [Json.isObj] at hv
    | num n => simp [Json.isObj] at hv
    | str s => simp [Json.isObj] at hv
    | arr xs => simp [Json.isObj] at hv

/-! ## Claim C2 — webhook always responds 200 -/

/-- C2 counterexample: when the request body is not valid JSON,
`json.loads` raises inside `do_POST` before `send_response(200)` is
reached, so no response is sent at all — the relay does not respond
`200` regardless of decode success. -/
theorem c2_counterexample : do_POST none = PostOutcome.crashed := rfl

/-- C2 (amended): for every POST whose body decodes to a JSON object
(whose `series` and `movie` fields, where present, are themselves
objects), the relay responds HTTP 200 with an empty body, regardless of
whether the external alert invocation succeeded (`os.system`'s result
is discarded and it does not raise); when JSON decoding fails, the
exception is uncaught and no response is sent. -/
theorem c2_webhook_amended :
    (∀ data : Json, data.isObj = true →
      (∀ sv, data.getField? "series" = some sv → sv.isObj = true) →
      (∀ mv, data.getField? "movie" = some mv → mv.isObj = true) →
      ∃ cmd, do_POST (some data) = PostOutcome.responded 200 cmd) ∧
    do_POST none = PostOutcome.crashed := by
  refine ⟨?_, rfl⟩
  intro data hobj hs hm
  cases data with
  | obj fs =>
    obtain ⟨svf, hsv⟩ := lookupD_isObj fs "series" hs
    obtain ⟨mvf, hmv⟩ := lookupD_isObj fs "movie" hm
    simp only [do_POST, extractTitle, seriesTitle, Json.pyGet, hsv, hmv]
    by_cases ht : ((svf.lookup "title").getD Json.null).truthy
    · exact ⟨mkCmd (pyStr ((svf.lookup "title").getD Json.null)),
        by simp [ht]⟩
    · exact ⟨mkCmd (pyStr ((mvf.lookup "title").getD (Json.str "Unknown"))),
        by simp [ht]⟩
  | null => simp [Json.isObj] at hobj
  | bool b => simp [Json.isObj] at hobj
  | num n => simp [Json.isObj] at hobj
  | str s => simp [Json.isObj] at hobj
  | arr xs => simp [Json.isObj] at hobj

/-- Witness for C2: an empty JSON object body gets a 200 response. -/
theorem c2_witness :
    ∃ cmd, do_POST (some (Json.obj [])) = PostOutcome.responded 200 cmd :=
  c2_webhook_amended.1 (Json.obj []) rfl
    (fun _ h => nomatch h) (fun _ h => nomatch h)

/-! ## Claim C8 — webhook title extraction -/

/-- C8 counterexample: the body
`\x7b"series":\x7b"title":""\x7d,"movie":\x7b"title":"Film B"\x7d\x7d`
contains a series title (the empty string), yet the alert is invoked
with the movie title — Python's `or` falls through on a falsy series
title, so the claim as stated fails. -/
theorem c8_counterexample :
    do_POST (some (Json.obj [("series", Json.obj [("title", Json.str "")]),
        ("movie", Json.obj [("title", Json.str "Film B")])]))
      = PostOutcome.responded 200 (mkCmd "Film B") ∧
    mkCmd "Film B" ≠ mkCmd "" :=
  ⟨rfl, by decide⟩

/-- C8 (amended): for every webhook body (a JSON object) containing a
*truthy* series title, the alert command interpolates that title into
`"<title> is ready to watch!"`; when the series title is absent or
falsy, the movie title is used; when the movie has no title either (or
no movie object is present), the literal `"Unknown"` is used. -/
theorem c8_title_amended :
    (∀ data sv t : Json,
      data.isObj = true →
      data.getField? "series" = some sv →
      sv.getField? "title" = some t →
      t.truthy = true →
      do_POST (some data) = PostOutcome.responded 200 (mkCmd (pyStr t))) ∧
    (∀ data mv m : Json,
      data.isObj = true →
      (∃ t0, seriesTitle data = Except.ok t0 ∧ t0.truthy = false) →
      data.getField? "movie" = some mv →
      mv.getField? "title" = some m →
      do_POST (some data) = PostOutcome.responded 200 (mkCmd (pyStr m))) ∧
    (∀ data : Json,
      data.isObj = true →
      (∃ t0, seriesTitle data = Except.ok t0 ∧ t0.truthy = false) →
      (∀ mv, data.getField? "movie" = some mv →
        mv.isObj = true ∧ mv.getField? "title" = none) →
      do_POST (some data) = PostOutcome.responded 200 (mkCmd "Unknown")) := by
  refine ⟨?_, ?_, ?_⟩
  · intro data sv t hobj hser hst ht
    cases data with
    | obj fs =>
      simp only [Json.getField?] at hser
      cases sv with
      | obj svf =>
        simp only [Json.getField?] at hst
        simp [do_POST, extractTitle, seriesTitle, Json.pyGet, hser, hst, ht]
      | null => simp [Json.getField?] at hst
      | bool b => simp [Json.getField?] at hst
      | num n => simp [Json.getField?] at hst
      | str s => simp [Json.getField?] at hst
      | arr xs => simp [Json.getField?] at hst
    | null => simp [Json.isObj] at hobj
    | bool b => simp [Json.isObj] at hobj
    | num n => simp [Json.isObj] at hobj
    | str s => simp [Json.isObj] at hobj
    | arr xs => simp [Json.isObj] at hobj
  · intro data mv m hobj hfalsy hmv hm
    obtain ⟨t0, hok, hf⟩ := hfalsy
    cases data with
    | obj fs =>
      simp only [Json.getField?] at hmv
      cases mv with
      | obj mvf =>
        simp only [Json.getField?] at hm
        simp [do_POST, extractTitle, Json.pyGet, hok, hf, hmv, hm]
      | null => simp [Json.getField?] at hm
      | bool b => simp [Json.getField?] at hm
      | num n => simp [Json.getField?] at hm
      | str s => simp [Json.getField?] at hm
      | arr xs => simp [Json.getField?] at hm
    | null => simp [Json.isObj] at hobj
    | bool b => simp [Json.isObj] at hobj
    | num n => simp [Json.isObj] at hobj
    | str s => simp [Json.isObj] at hobj
    | arr xs => simp [Json.isObj] at hobj
  · intro data hobj hfalsy hnone
    obtain ⟨t0, hok, hf⟩ := hfalsy
    cases data with
    | obj fs =>
      obtain ⟨mvf, hmv, hti⟩ : ∃ g, (fs.lookup "movie").getD (Json.obj [])
          = Json.obj g ∧ g.lookup "title" = none := by
        cases hl : fs.lookup "movie" with
        | none => exact ⟨[], rfl, rfl⟩
        | some v =>
          obtain ⟨hvo, hvt⟩ := hnone v (by simpa [Json.getField?] using hl)
          cases v with
          | obj g => exact ⟨g, rfl, by simpa [Json.getField?] using hvt⟩
          | null => simp [Json.isObj] at hvo
          | bool b => simp [Json.isObj] at hvo
          | num n => simp [Json.isObj] at hvo
          | str s => simp [Json.isObj] at hvo
          | arr xs => simp [Json.isObj] at hvo
      simp [do_POST, extractTitle, Json.pyGet, hok, hf, hmv, hti, pyStr]
    | null => simp [Json.isObj] at hobj
    | bool b => simp [Json.isObj] at hobj
    | num n => simp [Json.isObj] at hobj
    | str s => simp [Json.isObj] at hobj
    | arr xs => simp [Json.isObj] at hobj

/-- Witness for C8: a series-title body alerts with the series title, a
movie-only body with the movie title, and an empty body with
`"Unknown"`. -/
theorem c8_witness :
    (do_POST (some (Json.obj [("series", Json.obj [("title", Json.str "Show A")])]))
      = PostOutcome.responded 200 (mkCmd (pyStr (Json.str "Show A")))) ∧
    (do_POST (some (Json.obj [("movie", Json.obj [("title", Json.str "Film B")])]))
      = PostOutcome.responded 200 (mkCmd (pyStr (Json.str "Film B")))) ∧
    (do_POST (some (Json.obj [])) = PostOutcome.responded 200 (mkCmd "Unknown")) :=
  ⟨c8_title_amended.1 (Json.obj [("series", Json.obj [("title", Json.str "Show A")])])
      (Json.obj [("title", Json.str "Show A")]) (Json.str "Show A") rfl rfl rfl rfl,
   c8_title_amended.2.1 (Json.obj [("movie", Json.obj [("title", Json.str "Film B")])])
      (Json.obj [("title", Json.str "Film B")]) (Json.str "Film B") rfl
      ⟨Json.null, rfl, rfl⟩ rfl rfl,
   c8_title_amended.2.2 (Json.obj []) rfl ⟨Json.null, rfl, rfl⟩
      (fun _ h => nomatch h)⟩

/-! ## Claims C3, C4 — check-before-create idempotency -/

/-- C3: whenever the fetched remote-path-mapping collection contains an
entry whose `host` field equals the target host, the operation issues
no creation POST (the trace grows by the single fetch GET only) and
reports success, regardless of that entry's `remotePath`/`localPath`
values (they are never inspected). -/
theorem c3_mapping_host_only :
    ∀ (app : ArrApp) (host remote_path local_path : String) (s : Nat)
      (es : List Json) (rest : List HttpOutcome) (tr : List Request),
      s < 400 →
      (∀ x ∈ es, x.isObj = true) →
      (∃ e ∈ es, e.getField? "host" = some (Json.str host)) →
      app.add_remote_path_mapping host remote_path local_path
          ⟨HttpOutcome.response s (some (Json.arr es)) :: rest, tr⟩
        = (true, ⟨rest, tr ++ [⟨Method.get,
            app.url ++ "/api/v3/" ++ "remotePathMapping", none, 10⟩]⟩) := by
  intro app host remote_path local_path s es rest tr hs hobj hex
  obtain ⟨e, he, hf⟩ := hex
  have hno : ¬(400 ≤ s ∧ s < 600) := by omega
  have hscan := scanFieldEq_of_mem he hf
  have hne : es ≠ [] := List.ne_nil_of_mem he
  have hemp : es.isEmpty = false := by simpa using hne
  simp [ArrApp.add_remote_path_mapping, ArrApp.get, doRequest, httpResult,
    hno, optTruthy, Json.truthy, optElems, hemp, hscan]

/-- Witness for C3: a stale mapping with the right host but different
paths still suppresses creation. -/
theorem c3_witness :
    (mkArrApp "Sonarr" "http://localhost:8989" (some "k")).add_remote_path_mapping
        "rdtclient" "/data/downloads" "/data/downloads"
        ⟨[HttpOutcome.response 200 (some (Json.arr
          [Json.obj [("host", Json.str "rdtclient"),
                     ("remotePath", Json.str "/stale"),
                     ("localPath", Json.str "/other")]]))], []⟩
      = (true, ⟨[], [⟨Method.get,
          (mkArrApp "Sonarr" "http://localhost:8989" (some "k")).url
            ++ "/api/v3/" ++ "remotePathMapping", none, 10⟩]⟩) :=
  c3_mapping_host_only (mkArrApp "Sonarr" "http://localhost:8989" (some "k"))
    "rdtclient" "/data/downloads" "/data/downloads" 200
    [Json.obj [("host", Json.str "rdtclient"),
               ("remotePath", Json.str "/stale"),
               ("localPath", Json.str "/other")]] [] []
    (by decide)
    (by intro x hx; simp only [List.mem_singleton] at hx; subst hx; rfl)
    ⟨Json.obj [("host", Json.str "rdtclient"),
               ("remotePath", Json.str "/stale"),
               ("localPath", Json.str "/other")],
      by simp, rfl⟩

/-- C4: whenever the fetched download-client collection contains an
entry named `RdtClient`, the operation issues zero creation POSTs (the
trace grows by the single fetch GET only) and reports success, so a
repeated run against a service already holding that client creates
nothing. -/
theorem c4_download_client_idempotent :
    ∀ (app : ArrApp) (rdt_url category : String) (s : Nat)
      (es : List Json) (rest : List HttpOutcome) (tr : List Request),
      s < 400 →
      (∀ x ∈ es, x.isObj = true) →
      (∃ e ∈ es, e.getField? "name" = some (Json.str "RdtClient")) →
      app.add_download_client rdt_url category
          ⟨HttpOutcome.response s (some (Json.arr es)) :: rest, tr⟩
        = (true, ⟨rest, tr ++ [⟨Method.get,
            app.url ++ "/api/v3/" ++ "downloadclient", none, 10⟩]⟩) := by
  intro app rdt_url category s es rest tr hs hobj hex
  obtain ⟨e, he, hf⟩ := hex
  have hno : ¬(400 ≤ s ∧ s < 600) := by omega
  have hscan := scanFieldEq_of_mem he hf
  have hne : es ≠ [] := List.ne_nil_of_mem he
  have hemp : es.isEmpty = false := by simpa using hne
  simp [ArrApp.add_download_client, ArrApp.get, doRequest, httpResult,
    hno, optTruthy, Json.truthy, optElems, hemp, hscan]

/-- Witness for C4: a collection already holding `RdtClient` (with
other entries around it) triggers no POST. -/
theorem c4_witness :
    (mkArrApp "Radarr" "http://localhost:7878" (some "k")).add_download_client
        "http://rdtclient:6500" "radarr"
        ⟨[HttpOutcome.response 200 (some (Json.arr
          [Json.obj [("name", Json.str "Deluge")],
           Json.obj [("name", Json.str "RdtClient")]]))], []⟩
      = (true, ⟨[], [⟨Method.get,
          (mkArrApp "Radarr" "http://localhost:7878" (some "k")).url
            ++ "/api/v3/" ++ "downloadclient", none, 10⟩]⟩) :=
  c4_download_client_idempotent
    (mkArrApp "Radarr" "http://localhost:7878" (some "k"))
    "http://rdtclient:6500" "radarr" 200
    [Json.obj [("name", Json.str "Deluge")],
     Json.obj [("name", Json.str "RdtClient")]] [] []
    (by decide)
    (by intro x hx
        rcases List.mem_cons.mp hx with h | h
        · subst h; rfl
        · simp only [List.mem_singleton] at h; subst h; rfl)
    ⟨Json.obj [("name", Json.str "RdtClient")], by simp, rfl⟩

/-! ## Claim C5 — fetch failure treated as absence -/

/-- C5: when the initial collection GET yields the sentinel (`None`),
each ensure-present operation behaves exactly as if the collection were
empty — it proceeds to submit the creation POST (the second traced
request) instead of escalating the fetch failure.  The first conjunct
of each pair equates the full run on a failed fetch with the run on an
empty collection; the second exhibits the issued GET-then-POST trace. -/
theorem c5_fetch_failure_as_absent :
    ∀ (app : ArrApp) (rdt_url category path host remote_path local_path : String)
      (rest : List HttpOutcome) (tr : List Request),
      (app.add_download_client rdt_url category ⟨.netError :: rest, tr⟩
        = app.add_download_client rdt_url category
            ⟨.response 200 (some (Json.arr [])) :: rest, tr⟩ ∧
       (app.add_download_client rdt_url category ⟨.netError :: rest, tr⟩).2.trace
        = tr ++ [⟨Method.get, app.url ++ "/api/v3/" ++ "downloadclient", none, 10⟩,
                 ⟨Method.post, app.url ++ "/api/v3/" ++ "downloadclient",
                   some (downloadClientConfig rdt_url category), 10⟩]) ∧
      (app.add_root_folder path ⟨.netError :: rest, tr⟩
        = app.add_root_folder path
            ⟨.response 200 (some (Json.arr [])) :: rest, tr⟩ ∧
       (app.add_root_folder path ⟨.netError :: rest, tr⟩).2.trace
        = tr ++ [⟨Method.get, app.url ++ "/api/v3/" ++ "rootfolder", none, 10⟩,
                 ⟨Method.post, app.url ++ "/api/v3/" ++ "rootfolder",
                   some (Json.obj [("path", Json.str path)]), 10⟩]) ∧
      (app.add_remote_path_mapping host remote_path local_path
            ⟨.netError :: rest, tr⟩
        = app.add_remote_path_mapping host remote_path local_path
            ⟨.response 200 (some (Json.arr [])) :: rest, tr⟩ ∧
       (app.add_remote_path_mapping host remote_path local_path
            ⟨.netError :: rest, tr⟩).2.trace
        = tr ++ [⟨Method.get, app.url ++ "/api/v3/" ++ "remotePathMapping", none, 10⟩,
                 ⟨Method.post, app.url ++ "/api/v3/" ++ "remotePathMapping",
                   some (Json.obj [("host", Json.str host),
                     ("remotePath", Json.str remote_path),
                     ("localPath", Json.str local_path)]), 10⟩]) := by
  intro app rdt_url category path host remote_path local_path rest tr
  refine ⟨⟨?_, ?_⟩, ⟨?_, ?_⟩, ⟨?_, ?_⟩⟩ <;>
    cases rest <;>
      simp [ArrApp.add_download_client, ArrApp.add_root_folder,
        ArrApp.add_remote_path_mapping, ArrApp.get, ArrApp.post, doRequest,
        httpResult, optTruthy, Json.truthy, optElems, scanFieldEq]

/-! ## Claim C9 — creation success is response truthiness -/

/-- C9: after issuing its creation POST, each ensure-present operation
reports success exactly when the parsed JSON body of the 2xx response
is truthy; in particular `null`, `false`, `0`, `""`, `[]` and an empty
object are all reported as failure. -/
theorem c9_creation_truthiness :
    ∀ (app : ArrApp) (rdt_url category path host remote_path local_path : String)
      (s : Nat) (b : Json) (rest : List HttpOutcome) (tr : List Request),
      200 ≤ s → s < 300 →
      ((app.add_download_client rdt_url category
          ⟨[HttpOutcome.netError, HttpOutcome.response s (some b)] ++ rest, tr⟩).1
        = b.truthy ∧
       (app.add_root_folder path
          ⟨[HttpOutcome.netError, HttpOutcome.response s (some b)] ++ rest, tr⟩).1
        = b.truthy ∧
       (app.add_remote_path_mapping host remote_path local_path
          ⟨[HttpOutcome.netError, HttpOutcome.response s (some b)] ++ rest, tr⟩).1
        = b.truthy) ∧
      (Json.truthy Json.null = false ∧ Json.truthy (Json.bool false) = false ∧
       Json.truthy (Json.num 0) = false ∧ Json.truthy (Json.str "") = false ∧
       Json.truthy (Json.arr []) = false ∧ Json.truthy (Json.obj []) = false) := by
  intro app rdt_url category path host remote_path local_path s b rest tr h2 h3
  have hno : ¬(400 ≤ s ∧ s < 600) := by omega
  refine ⟨⟨?_, ?_, ?_⟩, by simp [Json.truthy], by simp [Json.truthy],
    by simp [Json.truthy], by simp [Json.truthy], by simp [Json.truthy],
    by simp [Json.truthy]⟩ <;>
    simp [ArrApp.add_download_client, ArrApp.add_root_folder,
      ArrApp.add_remote_path_mapping, ArrApp.get, ArrApp.post, doRequest,
      httpResult, hno, optTruthy, Json.truthy, optElems, scanFieldEq]

/-- Witness for C9: a 2xx creation response whose body parses to `null`
is reported as failure. -/
theorem c9_witness :
    ((mkArrApp "Sonarr" "http://localhost:8989" (some "k")).add_root_folder "/tv"
        ⟨[HttpOutcome.netError, HttpOutcome.response 201 (some Json.null)], []⟩).1
      = Json.truthy Json.null :=
  ((c9_creation_truthiness (mkArrApp "Sonarr" "http://localhost:8989" (some "k"))
    "u" "c" "/tv" "h" "r" "l" 201 Json.null [] [] (by decide) (by decide)).1).2.1

/-! ## Claim C6 — API client error contract -/

/-- C6 counterexample: a `304 Not Modified` response with a JSON body is
not 2xx, yet `get` returns the parsed body rather than the sentinel —
`raise_for_status` raises only for status codes 400–599, so "sentinel on
any non-2xx status" fails as stated. -/
theorem c6_counterexample :
    ((mkArrApp "Sonarr" "http://localhost:8989" (some "k")).get "downloadclient"
        ⟨[HttpOutcome.response 304 (some (Json.str "cached"))], []⟩).1
      = some (Json.str "cached") ∧
    ¬(200 ≤ 304 ∧ 304 < 300) :=
  ⟨rfl, by decide⟩

/-- C6 (amended): every `get`/`post`/`put` call is total (the model
returns a value on every input, as the source catches every
`RequestException`), issues exactly one request with `timeout=10`,
returns the sentinel `None` on a transport error or timeout or a
4xx/5xx status, and returns the body's parse on any other status — in
particular the parsed JSON on a 2xx response; a non-2xx status outside
400–599 (e.g. 304) also yields the parsed body rather than the
sentinel. -/
theorem c6_client_amended :
    ∀ (app : ArrApp) (endpoint : String) (body : Json) (o : HttpOutcome)
      (rest : List HttpOutcome) (tr : List Request),
      ((app.get endpoint ⟨o :: rest, tr⟩).2.trace
          = tr ++ [⟨Method.get, app.url ++ "/api/v3/" ++ endpoint, none, 10⟩] ∧
        (app.post endpoint body ⟨o :: rest, tr⟩).2.trace
          = tr ++ [⟨Method.post, app.url ++ "/api/v3/" ++ endpoint,
              some body, 10⟩] ∧
        (app.put endpoint body ⟨o :: rest, tr⟩).2.trace
          = tr ++ [⟨Method.put, app.url ++ "/api/v3/" ++ endpoint,
              some body, 10⟩]) ∧
      (o = HttpOutcome.netError →
        (app.get endpoint ⟨o :: rest, tr⟩).1 = none ∧
        (app.post endpoint body ⟨o :: rest, tr⟩).1 = none ∧
        (app.put endpoint body ⟨o :: rest, tr⟩).1 = none) ∧
      (∀ (s : Nat) (b : Option Json), o = HttpOutcome.response s b →
        ((400 ≤ s ∧ s < 600) →
          (app.get endpoint ⟨o :: rest, tr⟩).1 = none ∧
          (app.post endpoint body ⟨o :: rest, tr⟩).1 = none ∧
          (app.put endpoint body ⟨o :: rest, tr⟩).1 = none) ∧
        (¬(400 ≤ s ∧ s < 600) →
          (app.get endpoint ⟨o :: rest, tr⟩).1 = b ∧
          (app.post endpoint body ⟨o :: rest, tr⟩).1 = b ∧
          (app.put endpoint body ⟨o :: rest, tr⟩).1 = b)) := by
  intro app endpoint body o rest tr
  refine ⟨⟨?_, ?_, ?_⟩, ?_, ?_⟩
  · simp [ArrApp.get, doRequest]
  · simp [ArrApp.post, doRequest]
  · simp [ArrApp.put, doRequest]
  · intro ho
    subst ho
    exact ⟨rfl, rfl, rfl⟩
  · intro s b ho
    subst ho
    constructor
    · intro h45
      refine ⟨?_, ?_, ?_⟩ <;>
        simp [ArrApp.get, ArrApp.post, ArrApp.put, doRequest, httpResult, h45]
    · intro h45
      refine ⟨?_, ?_, ?_⟩ <;>
        simp [ArrApp.get, ArrApp.post, ArrApp.put, doRequest, httpResult, h45]

/-- Witness for C6: a transport error yields the sentinel, a 2xx
response yields its parsed body. -/
theorem c6_witness :
    ((mkArrApp "Sonarr" "http://localhost:8989" (some "k")).get "system/status"
        ⟨[HttpOutcome.netError], []⟩).1 = none ∧
    ((mkArrApp "Sonarr" "http://localhost:8989" (some "k")).get "rootfolder"
        ⟨[HttpOutcome.response 200 (some (Json.arr []))], []⟩).1
      = some (Json.arr []) :=
  ⟨((c6_client_amended (mkArrApp "Sonarr" "http://localhost:8989" (some "k"))
      "system/status" Json.null HttpOutcome.netError [] []).2.1 rfl).1,
   (((c6_client_amended (mkArrApp "Sonarr" "http://localhost:8989" (some "k"))
      "rootfolder" Json.null (HttpOutcome.response 200 (some (Json.arr []))) []
      []).2.2 200 (some (Json.arr [])) rfl).2 (by decide)).1⟩

/-! ## Claim C1 — exit status aggregation -/

/-- C1 counterexample: a run of `main` on Sonarr alone in which the
readiness probe succeeds and every subsequent request fails (so all
three ensure-present operations fail — the last three conjuncts
evaluate each operation at exactly the state it sees in this run)
still exits with code 0: `configure_sonarr` discards the operations'
results, so their failures never reach the exit status. -/
theorem c1_counterexample :
    (mainRun AppChoice.sonarr false ["SONARR_API_KEY=k"] 1
        ⟨[HttpOutcome.response 200 none, .netError, .netError, .netError,
          .netError, .netError, .netError], []⟩).1 = 0 ∧
    (mainRun AppChoice.sonarr false ["SONARR_API_KEY=k"] 1
        ⟨[HttpOutcome.response 200 none, .netError, .netError, .netError,
          .netError, .netError, .netError], []⟩).2.pending = [] ∧
    ((mkArrApp "Sonarr" "http://localhost:8989" (some "k")).add_download_client
        "http://rdtclient:6500" "sonarr"
        ⟨[.netError, .netError, .netError, .netError, .netError, .netError],
          [probeReq (mkArrApp "Sonarr" "http://localhost:8989" (some "k"))]⟩).1
      = false ∧
    ((mkArrApp "Sonarr" "http://localhost:8989" (some "k")).add_root_folder "/tv"
        ⟨[.netError, .netError, .netError, .netError], []⟩).1 = false ∧
    ((mkArrApp "Sonarr" "http://localhost:8989" (some "k")).add_remote_path_mapping
        "rdtclient" "/data/downloads" "/data/downloads"
        ⟨[.netError, .netError], []⟩).1 = false :=
  ⟨rfl, rfl, rfl, rfl, rfl⟩

/-- C1 (amended): the exit code is 0 exactly when every selected
service's configure function reported success and 1 otherwise — but a
configure function fails only on a missing/empty API key or a readiness
timeout: whenever the key is present and the probe succeeds, it reports
success regardless of the outcomes of the three ensure-present
operations, whose boolean results are discarded. -/
theorem c1_exit_code_amended :
    (∀ (dry : Bool) (envLines : List String) (fuel : Nat) (st : NetState),
      (mainRun AppChoice.sonarr dry envLines fuel st).1 =
        if (configure_sonarr (load_env envLines) dry fuel st).1 then 0 else 1) ∧
    (∀ (dry : Bool) (envLines : List String) (fuel : Nat) (st : NetState),
      (mainRun AppChoice.radarr dry envLines fuel st).1 =
        if (configure_radarr (load_env envLines) dry fuel st).1 then 0 else 1) ∧
    (∀ (dry : Bool) (envLines : List String) (fuel : Nat) (st : NetState),
      (mainRun AppChoice.prowlarr dry envLines fuel st).1 =
        if (configure_prowlarr (load_env envLines) dry fuel st).1 then 0 else 1) ∧
    (∀ (dry : Bool) (envLines : List String) (fuel : Nat) (st : NetState),
      (mainRun AppChoice.all dry envLines fuel st).1 =
        (let env := load_env envLines
         let r1 := configure_sonarr env dry fuel st
         let r2 := configure_radarr env dry fuel r1.2
         let r3 := configure_prowlarr env dry fuel r2.2
         if r1.1 && r2.1 && r3.1 then 0 else 1)) ∧
    (∀ (env : List (String × String)) (fuel : Nat) (st : NetState),
      strOptTruthy (dictGet env "SONARR_API_KEY") = true →
      (wait_for_ready (mkArrApp "Sonarr" "http://localhost:8989"
          (dictGet env "SONARR_API_KEY")) fuel st).1 = true →
      (configure_sonarr env false fuel st).1 = true) ∧
    (∀ (env : List (String × String)) (fuel : Nat) (st : NetState),
      strOptTruthy (dictGet env "RADARR_API_KEY") = true →
      (wait_for_ready (mkArrApp "Radarr" "http://localhost:7878"
          (dictGet env "RADARR_API_KEY")) fuel st).1 = true →
      (configure_radarr env false fuel st).1 = true) := by
  refine ⟨?_, ?_, ?_, ?_, ?_, ?_⟩
  · intro dry envLines fuel st
    simp [mainRun]
  · intro dry envLines fuel st
    simp [mainRun]
  · intro dry envLines fuel st
    simp [mainRun]
  · intro dry envLines fuel st
    simp [mainRun]
  · intro env fuel st hk hw
    simp [configure_sonarr, hk, hw]
  · intro env fuel st hk hw
    simp [configure_radarr, hk, hw]

/-- Witness for C1: with the API key present and a ready service, the
configure step succeeds even though every ensure-present operation in
the run fails. -/
theorem c1_witness :
    (configure_sonarr [("SONARR_API_KEY", "k")] false 1
        ⟨[HttpOutcome.response 200 none], []⟩).1 = true ∧
    (configure_radarr [("RADARR_API_KEY", "k")] false 1
        ⟨[HttpOutcome.response 200 none], []⟩).1 = true :=
  ⟨c1_exit_code_amended.2.2.2.2.1 [("SONARR_API_KEY", "k")] 1
      ⟨[HttpOutcome.response 200 none], []⟩ rfl rfl,
   c1_exit_code_amended.2.2.2.2.2 [("RADARR_API_KEY", "k")] 1
      ⟨[HttpOutcome.response 200 none], []⟩ rfl rfl⟩

/-! ## Claim C7 — dry-run issues no mutations -/

/-- C7: in dry-run mode, for a selected service with a truthy API key
whose readiness probe succeeds, the configure function reports success
and the whole run issues only GET requests (the readiness probes) — no
POST or PUT is ever traced. -/
theorem c7_dry_run_no_mutation :
    (∀ (env : List (String × String)) (fuel : Nat) (st : NetState),
      strOptTruthy (dictGet env "SONARR_API_KEY") = true →
      (wait_for_ready (mkArrApp "Sonarr" "http://localhost:8989"
          (dictGet env "SONARR_API_KEY")) fuel st).1 = true →
      (configure_sonarr env true fuel st).1 = true ∧
      ∃ new, (configure_sonarr env true fuel st).2.trace = st.trace ++ new ∧
        ∀ q ∈ new, q.method = Method.get) ∧
    (∀ (env : List (String × String)) (fuel : Nat) (st : NetState),
      strOptTruthy (dictGet env "RADARR_API_KEY") = true →
      (wait_for_ready (mkArrApp "Radarr" "http://localhost:7878"
          (dictGet env "RADARR_API_KEY")) fuel st).1 = true →
      (configure_radarr env true fuel st).1 = true ∧
      ∃ new, (configure_radarr env true fuel st).2.trace = st.trace ++ new ∧
        ∀ q ∈ new, q.method = Method.get) := by
  constructor
  · intro env fuel st hk hw
    obtain ⟨new, h1, h2⟩ := wait_for_ready_trace
      (mkArrApp "Sonarr" "http://localhost:8989" (dictGet env "SONARR_API_KEY"))
      fuel st.pending st.trace
    refine ⟨by simp [configure_sonarr, hk, hw], new, ?_, h2⟩
    simpa [configure_sonarr, hk, hw] using h1
  · intro env fuel st hk hw
    obtain ⟨new, h1, h2⟩ := wait_for_ready_trace
      (mkArrApp "Radarr" "http://localhost:7878" (dictGet env "RADARR_API_KEY"))
      fuel st.pending st.trace
    refine ⟨by simp [configure_radarr, hk, hw], new, ?_, h2⟩
    simpa [configure_radarr, hk, hw] using h1

/-- Witness for C7: a one-probe dry run on each service succeeds and
traces only GETs. -/
theorem c7_witness :
    ((configure_sonarr [("SONARR_API_KEY", "k")] true 1
        ⟨[HttpOutcome.response 200 none], []⟩).1 = true ∧
      ∃ new, (configure_sonarr [("SONARR_API_KEY", "k")] true 1
          ⟨[HttpOutcome.response 200 none], []⟩).2.trace = [] ++ new ∧
        ∀ q ∈ new, q.method = Method.get) ∧
    ((configure_radarr [("RADARR_API_KEY", "k")] true 1
        ⟨[HttpOutcome.response 200 none], []⟩).1 = true ∧
      ∃ new, (configure_radarr [("RADARR_API_KEY", "k")] true 1
          ⟨[HttpOutcome.response 200 none], []⟩).2.trace = [] ++ new ∧
        ∀ q ∈ new, q.method = Method.get) :=
  ⟨c7_dry_run_no_mutation.1 [("SONARR_API_KEY", "k")] 1
      ⟨[HttpOutcome.response 200 none], []⟩ rfl rfl,
   c7_dry_run_no_mutation.2 [("RADARR_API_KEY", "k")] 1
      ⟨[HttpOutcome.response 200 none], []⟩ rfl rfl⟩

end MediaServer
